import Mathlib

/-!
# Verification of the pngview session controller (src/pngview/pngview.c)

This file gives a shallow embedding of the session-controller loop of
`pngview.c` and proves or refutes the claims of the specification about it.

Modelling conventions:
* `St` mirrors the mutable variables of `main` together with the two
  `volatile` globals `run` and `reload`.
* `Config` mirrors the per-session constants resolved before the loop
  (`strcmp(imagePath, "-") == 0`, `interactive`, `monitorChanges`, `timeout`).
* `TickEnv` models the external world for one loop iteration: signals that
  were delivered since the previous iteration, the result of `stat` on the
  monitored path, the result of `loadPng`, and the pending keyboard byte.
* Machine counters (`uint32_t currentTime`, `lastModCheckTime`, `timeout`)
  are `Nat` reduced modulo `2 ^ 32`; `time_t` and `int32_t` are `Int`
  (signed overflow in C is undefined, so the in-range behaviour is total).
* Each loop iteration (`tick`) additionally returns a trace of observable
  actions (`Ev`) in the order they are performed, so that ordering and
  transaction-count properties can be stated.
-/

/-- Modulus of the C type `uint32_t`. -/
def uint32 : Nat := 4294967296

/-- One observable action inside a single loop iteration, in source order:
file-modification poll (with whether it latched a reload), reload
application (with the `loadPng` result), the compositor transaction issued
by `changeSourceAndUpdateImageLayer`, the 200 ms failure pause, the consumed
(already lower-cased) keyboard byte, the compositor transaction issued for a
move, the fixed 10 ms sleep, and the timeout firing. -/
inductive Ev where
  | fileCheck (changed : Bool)
  | reloadApply (ok : Bool)
  | contentTx
  | pause200
  | keyRead (c : Nat)
  | moveTx
  | sleepTick
  | timeoutFired
deriving DecidableEq, Repr

/-- The mutable state of `main`: the `volatile` globals `run` and `reload`
and the locals `xOffset`, `yOffset`, `step`, `currentTime`,
`lastModCheckTime`, `lastFileMod`. -/
structure St where
  run : Bool
  reload : Bool
  xOffset : Int
  yOffset : Int
  step : Int
  currentTime : Nat
  lastModCheckTime : Nat
  lastFileMod : Int
deriving DecidableEq, Repr

/-- The per-session constants of `main`: whether the image path was `-`
(standard input), `interactive` (cleared by `-n`), `monitorChanges`
(set by `-m`) and `timeout` (`-t`, a `uint32_t`, `0` = disabled). -/
structure Config where
  stdinSource : Bool
  interactive : Bool
  monitorChanges : Bool
  timeout : Nat
deriving DecidableEq, Repr

/-- The external world during one loop iteration: which signals were
delivered since the previous iteration, the result of `stat` on the image
path (`none` = `stat` failed), the indeterminate value that the uninitialised
`attr.st_mtime` holds when `stat` fails, the result of `loadPng`, and the
keyboard byte returned by `keyPressed` (if any). -/
structure TickEnv where
  sigReload : Bool
  sigStop : Bool
  statResult : Option Int
  statJunk : Int
  decodeOk : Bool
  key : Option Nat
deriving DecidableEq, Repr

/-- The three signals `main` installs a handler for. -/
inductive Signal where
  | sigtstp
  | sigint
  | sigterm
deriving DecidableEq, Repr

/-- Embedding of `signalHandler` (pngview.c lines 61-76): `SIGTSTP` sets the
global `reload`, `SIGINT` and `SIGTERM` clear the global `run`. -/
def signalHandler (s : Signal) (st : St) : St :=
  match s with
  | .sigtstp => { st with reload := true }
  | .sigint => { st with run := false }
  | .sigterm => { st with run := false }

/-- Signals delivered since the previous iteration latch into the globals
before the iteration body reads them (the handler may run at any point; the
flags are read once per iteration, so this is the canonical interleaving). -/
def latchSignals (env : TickEnv) (st : St) : St :=
  let st1 := if env.sigReload then signalHandler .sigtstp st else st
  if env.sigStop then signalHandler .sigint st1 else st1

/-- Embedding of `getFileModificationTime` (pngview.c lines 78-83): the
return value of `stat` is ignored, so on failure the function returns
whatever indeterminate value the uninitialised `attr.st_mtime` holds. -/
def getFileModificationTime (env : TickEnv) : Int :=
  match env.statResult with
  | some t => t
  | none => env.statJunk

/-- The guard of the file-modification poll (pngview.c line 305):
`monitorChanges && ((currentTime - lastModCheckTime) >= 1000)` with the
wrap-around `uint32_t` subtraction made explicit. -/
def monitorFires (cfg : Config) (st : St) : Bool :=
  cfg.monitorChanges &&
    decide (1000 ≤ (st.currentTime + uint32 - st.lastModCheckTime) % uint32)

/-- The file-modification poll (pngview.c lines 304-312): when due, record
the check time, query the modification time, latch `reload` when it differs
from `lastFileMod`, and update `lastFileMod` unconditionally. -/
def phaseMonitor (cfg : Config) (env : TickEnv) (st : St) : St × List Ev :=
  if monitorFires cfg st then
    let modTime := getFileModificationTime env
    if st.lastFileMod ≠ modTime then
      ({ st with lastModCheckTime := st.currentTime,
                 reload := true,
                 lastFileMod := modTime }, [Ev.fileCheck true])
    else
      ({ st with lastModCheckTime := st.currentTime,
                 lastFileMod := modTime }, [Ev.fileCheck false])
  else (st, [])

/-- The reload block (pngview.c lines 314-328): `reload` is cleared first;
for a non-stdin source a failing `loadPng` only pauses 200 ms (the comment
says "wait and try again" but the flag stays cleared), while a successful
one redundantly clears `reload` again and issues the content-swap
transaction of `changeSourceAndUpdateImageLayer`. -/
def phaseReload (cfg : Config) (env : TickEnv) (st : St) : St × List Ev :=
  if st.reload then
    let st1 := { st with reload := false }
    if ¬cfg.stdinSource then
      if env.decodeOk then
        ({ st1 with reload := false }, [Ev.reloadApply true, Ev.contentTx])
      else
        (st1, [Ev.reloadApply false, Ev.pause200])
    else (st1, [])
  else (st, [])

/-- Embedding of `tolower` from `<ctype.h>` in the C locale on the byte
values `keyPressed` can deliver. -/
def toLowerC (c : Nat) : Nat :=
  if 65 ≤ c ∧ c ≤ 90 then c + 32 else c

/-- `step` ladder ascent, the `case '+'` chain (pngview.c lines 367-381). -/
def stepUp (s : Int) : Int :=
  if s = 1 then 5 else if s = 5 then 10 else if s = 10 then 20 else s

/-- `step` ladder descent, the `case '-'` chain (pngview.c lines 383-397). -/
def stepDown (s : Int) : Int :=
  if s = 20 then 10 else if s = 10 then 5 else if s = 5 then 1 else s

/-- The `switch (c)` on the already lower-cased byte (pngview.c lines
336-398); the `Bool` is the local `moveLayer`. -/
def keySwitch (st : St) (c : Nat) : St × Bool :=
  if c = 27 then ({ st with run := false }, false)
  else if c = 97 then ({ st with xOffset := st.xOffset - st.step }, true)
  else if c = 100 then ({ st with xOffset := st.xOffset + st.step }, true)
  else if c = 119 then ({ st with yOffset := st.yOffset - st.step }, true)
  else if c = 115 then ({ st with yOffset := st.yOffset + st.step }, true)
  else if c = 43 then ({ st with step := stepUp st.step }, false)
  else if c = 45 then ({ st with step := stepDown st.step }, false)
  else (st, false)

/-- Processing of one raw keyboard byte: `c = tolower(c)` then the switch
(pngview.c lines 330-398). -/
def applyKey (st : St) (c : Nat) : St × Bool :=
  keySwitch st (toLowerC c)

/-- The keyboard block (pngview.c lines 330-410): `interactive &&
keyPressed(&c)` short-circuits, so no key is consumed in non-interactive
mode; a set `moveLayer` issues the move transaction of lines 400-409. -/
def phaseKey (cfg : Config) (env : TickEnv) (st : St) : St × List Ev :=
  if cfg.interactive then
    match env.key with
    | some c0 =>
      let r := applyKey st c0
      if r.2 then (r.1, [Ev.keyRead (toLowerC c0), Ev.moveTx])
      else (r.1, [Ev.keyRead (toLowerC c0)])
    | none => (st, [])
  else (st, [])

/-- The end of the iteration (pngview.c lines 414-419): the fixed 10 ms
sleep, the `uint32_t` increment of `currentTime`, and the timeout check. -/
def phaseTime (cfg : Config) (st : St) : St × List Ev :=
  let st1 := { st with currentTime := (st.currentTime + 10) % uint32 }
  if cfg.timeout ≠ 0 ∧ cfg.timeout ≤ st1.currentTime then
    ({ st1 with run := false }, [Ev.sleepTick, Ev.timeoutFired])
  else (st1, [Ev.sleepTick])

/-- One iteration of the `while (run)` body (pngview.c lines 300-420), with
pending signal deliveries latched first. -/
def tick (cfg : Config) (env : TickEnv) (st0 : St) : St × List Ev :=
  let st := latchSignals env st0
  let a := phaseMonitor cfg env st
  let b := phaseReload cfg env a.1
  let c := phaseKey cfg env b.1
  let d := phaseTime cfg c.1
  (d.1, a.2 ++ (b.2 ++ (c.2 ++ d.2)))

/-- The session loop: run one iteration per environment while `run` holds,
concatenating the traces. -/
def runLoop (cfg : Config) : List TickEnv → St → St × List Ev
  | [], st => (st, [])
  | env :: envs, st =>
    if st.run then
      let r1 := tick cfg env st
      let r2 := runLoop cfg envs r1.1
      (r2.1, r1.2 ++ r2.2)
    else (st, [])

/-- Folding a list of raw keyboard bytes through the keyboard handler. -/
def runKeys (st : St) : List Nat → St
  | [] => st
  | c :: cs => runKeys (applyKey st c).1 cs

/-- The state at loop entry for a path source whose startup modification
time was `0`: `run = true`, `reload = false`, offsets as resolved at
startup (taken here as `0`), `step = 1` (pngview.c line 293), counters `0`. -/
def initSt : St :=
  { run := true, reload := false, xOffset := 0, yOffset := 0, step := 1,
    currentTime := 0, lastModCheckTime := 0, lastFileMod := 0 }

/-- The four-rung `step` ladder of the specification. -/
def ladderP (s : Int) : Prop :=
  s = 1 ∨ s = 5 ∨ s = 10 ∨ s = 20

instance (s : Int) : Decidable (ladderP s) := by
  unfold ladderP; infer_instance

/-- Rank of an action in the per-iteration source order, used to state the
ordering contract. -/
def rank : Ev → Nat
  | .fileCheck _ => 0
  | .reloadApply _ => 1
  | .contentTx => 2
  | .pause200 => 3
  | .keyRead _ => 4
  | .moveTx => 5
  | .sleepTick => 6
  | .timeoutFired => 7

/-- Number of compositor update transactions in a trace. -/
def txCount (tr : List Ev) : Nat :=
  tr.count Ev.contentTx + tr.count Ev.moveTx

/-- Whether a (lower-cased) byte is one of the four move keys `a d w s`. -/
def isMoveKey (c : Nat) : Bool :=
  decide (c = 97) || decide (c = 100) || decide (c = 119) || decide (c = 115)

/-- Whether, at the start of an iteration, a reload request is visible to
the reload block: the latched flag, a newly delivered `SIGTSTP`, or a due
file poll returning a modification time different from `lastFileMod`. -/
def reloadSeen (cfg : Config) (env : TickEnv) (st : St) : Bool :=
  (st.reload || env.sigReload) ||
    (monitorFires cfg st && decide (st.lastFileMod ≠ getFileModificationTime env))

/-- Whether the iteration performs the content swap (reload visible,
path source, decode succeeds). -/
def wantsContentTx (cfg : Config) (env : TickEnv) (st : St) : Bool :=
  reloadSeen cfg env st && !cfg.stdinSource && env.decodeOk

/-- Whether the iteration performs a position move (interactive, a key is
pending, and it lower-cases to a move key). -/
def wantsMoveTx (cfg : Config) (env : TickEnv) : Bool :=
  cfg.interactive &&
    (match env.key with
     | some c => isMoveKey (toLowerC c)
     | none => false)

/-- Modelled from the spec: the signed per-axis displacement of a key
sequence, each move contributing plus or minus the value `step` has at the
moment the move is applied (step changes affect only later moves). -/
def specSignedMoveSum (step : Int) : List Nat → Int × Int
  | [] => (0, 0)
  | c :: cs =>
    let k := toLowerC c
    let stepNext := if k = 43 then stepUp step else if k = 45 then stepDown step else step
    let rest := specSignedMoveSum stepNext cs
    ((if k = 97 then -step else if k = 100 then step else 0) + rest.1,
     (if k = 119 then -step else if k = 115 then step else 0) + rest.2)

/-- A session environment with no external activity: no signals, failing
`stat` (irrelevant when monitoring is off), successful decode, no key. -/
def quietEnv : TickEnv :=
  { sigReload := false, sigStop := false, statResult := none, statJunk := 0,
    decodeOk := true, key := none }

/-- A path-source interactive session without monitoring, with timeout `T`. -/
def cfgT (T : Nat) : Config :=
  { stdinSource := false, interactive := true, monitorChanges := false,
    timeout := T }

/-! ## Basic lemmas about the phases -/

theorem latchSignals_fields (env : TickEnv) (st : St) :
    (latchSignals env st).xOffset = st.xOffset ∧
    (latchSignals env st).yOffset = st.yOffset ∧
    (latchSignals env st).step = st.step ∧
    (latchSignals env st).currentTime = st.currentTime ∧
    (latchSignals env st).lastModCheckTime = st.lastModCheckTime ∧
    (latchSignals env st).lastFileMod = st.lastFileMod ∧
    (latchSignals env st).reload = (st.reload || env.sigReload) ∧
    (latchSignals env st).run = (st.run && !env.sigStop) := by
  unfold latchSignals signalHandler
  rcases env with ⟨r, s, _, _, _, _⟩
  cases r <;> cases s <;> simp

theorem phaseMonitor_shape (cfg : Config) (env : TickEnv) (st : St) :
    (phaseMonitor cfg env st).2 = [] ∨
    (phaseMonitor cfg env st).2 = [Ev.fileCheck true] ∨
    (phaseMonitor cfg env st).2 = [Ev.fileCheck false] := by
  unfold phaseMonitor
  dsimp only
  split_ifs <;> simp

theorem phaseMonitor_fields (cfg : Config) (env : TickEnv) (st : St) :
    (phaseMonitor cfg env st).1.xOffset = st.xOffset ∧
    (phaseMonitor cfg env st).1.yOffset = st.yOffset ∧
    (phaseMonitor cfg env st).1.step = st.step ∧
    (phaseMonitor cfg env st).1.currentTime = st.currentTime ∧
    (phaseMonitor cfg env st).1.run = st.run := by
  unfold phaseMonitor
  dsimp only
  split_ifs <;> simp

theorem phaseMonitor_reload (cfg : Config) (env : TickEnv) (st : St) :
    (phaseMonitor cfg env st).1.reload =
      (st.reload ||
        (monitorFires cfg st &&
          decide (st.lastFileMod ≠ getFileModificationTime env))) := by
  unfold phaseMonitor
  dsimp only
  split_ifs with h1 h2 <;> simp_all

theorem phaseReload_shape (cfg : Config) (env : TickEnv) (st : St) :
    (phaseReload cfg env st).2 = [] ∨
    (phaseReload cfg env st).2 = [Ev.reloadApply true, Ev.contentTx] ∨
    (phaseReload cfg env st).2 = [Ev.reloadApply false, Ev.pause200] := by
  unfold phaseReload
  dsimp only
  split_ifs <;> simp

theorem phaseReload_fields (cfg : Config) (env : TickEnv) (st : St) :
    (phaseReload cfg env st).1.xOffset = st.xOffset ∧
    (phaseReload cfg env st).1.yOffset = st.yOffset ∧
    (phaseReload cfg env st).1.step = st.step ∧
    (phaseReload cfg env st).1.currentTime = st.currentTime ∧
    (phaseReload cfg env st).1.lastModCheckTime = st.lastModCheckTime ∧
    (phaseReload cfg env st).1.lastFileMod = st.lastFileMod ∧
    (phaseReload cfg env st).1.run = st.run := by
  unfold phaseReload
  dsimp only
  split_ifs with h1 h2 h3 <;> simp_all

theorem phaseReload_reload (cfg : Config) (env : TickEnv) (st : St) :
    (phaseReload cfg env st).1.reload = false := by
  unfold phaseReload
  dsimp only
  split_ifs with h1 h2 h3 <;> simp_all

theorem phaseReload_stdin (cfg : Config) (env : TickEnv) (st : St)
    (h : cfg.stdinSource = true) :
    (phaseReload cfg env st).2 = [] := by
  unfold phaseReload
  dsimp only
  split_ifs <;> simp_all

theorem phaseKey_shape (cfg : Config) (env : TickEnv) (st : St) :
    (phaseKey cfg env st).2 = [] ∨
    (∃ k, (phaseKey cfg env st).2 = [Ev.keyRead k]) ∨
    (∃ k, (phaseKey cfg env st).2 = [Ev.keyRead k, Ev.moveTx]) := by
  unfold phaseKey
  split_ifs with h1
  · cases env.key with
    | none => simp
    | some c0 => dsimp only; split_ifs <;> simp
  · simp

theorem phaseKey_noninteractive (cfg : Config) (env : TickEnv) (st : St)
    (h : cfg.interactive = false) :
    phaseKey cfg env st = (st, []) := by
  unfold phaseKey
  simp [h]

theorem phaseKey_fields (cfg : Config) (env : TickEnv) (st : St) :
    (phaseKey cfg env st).1.currentTime = st.currentTime ∧
    (phaseKey cfg env st).1.lastModCheckTime = st.lastModCheckTime ∧
    (phaseKey cfg env st).1.lastFileMod = st.lastFileMod ∧
    (phaseKey cfg env st).1.reload = st.reload := by
  unfold phaseKey applyKey keySwitch
  split_ifs with h1
  · cases env.key with
    | none => simp
    | some c0 => dsimp only; split_ifs <;> simp
  · simp

theorem phaseTime_shape (cfg : Config) (st : St) :
    (phaseTime cfg st).2 = [Ev.sleepTick] ∨
    (phaseTime cfg st).2 = [Ev.sleepTick, Ev.timeoutFired] := by
  unfold phaseTime
  dsimp only
  split_ifs <;> simp

theorem phaseTime_fields (cfg : Config) (st : St) :
    (phaseTime cfg st).1.xOffset = st.xOffset ∧
    (phaseTime cfg st).1.yOffset = st.yOffset ∧
    (phaseTime cfg st).1.step = st.step ∧
    (phaseTime cfg st).1.reload = st.reload ∧
    (phaseTime cfg st).1.lastModCheckTime = st.lastModCheckTime ∧
    (phaseTime cfg st).1.lastFileMod = st.lastFileMod ∧
    (phaseTime cfg st).1.currentTime = (st.currentTime + 10) % uint32 := by
  unfold phaseTime
  dsimp only
  split_ifs <;> simp

/-! ## Lemmas about the keyboard handler -/

theorem toLowerC_toLowerC (c : Nat) : toLowerC (toLowerC c) = toLowerC c := by
  unfold toLowerC
  split_ifs with h1 h2 <;> first | rfl | omega

theorem keySwitch_snd (st : St) (c : Nat) : (keySwitch st c).2 = isMoveKey c := by
  unfold keySwitch isMoveKey
  split_ifs <;> simp_all

theorem keySwitch_xOffset (st : St) (c : Nat) :
    (keySwitch st c).1.xOffset =
      st.xOffset + (if c = 97 then -st.step else if c = 100 then st.step else 0) := by
  unfold keySwitch
  split_ifs <;> (simp_all; try omega)

theorem keySwitch_yOffset (st : St) (c : Nat) :
    (keySwitch st c).1.yOffset =
      st.yOffset + (if c = 119 then -st.step else if c = 115 then st.step else 0) := by
  unfold keySwitch
  split_ifs <;> (simp_all; try omega)

theorem keySwitch_step (st : St) (c : Nat) :
    (keySwitch st c).1.step =
      (if c = 43 then stepUp st.step else if c = 45 then stepDown st.step else st.step) := by
  unfold keySwitch
  split_ifs <;> simp_all

theorem keySwitch_other_fields (st : St) (c : Nat) :
    (keySwitch st c).1.reload = st.reload ∧
    (keySwitch st c).1.currentTime = st.currentTime ∧
    (keySwitch st c).1.lastModCheckTime = st.lastModCheckTime ∧
    (keySwitch st c).1.lastFileMod = st.lastFileMod := by
  unfold keySwitch
  split_ifs <;> simp_all

theorem stepUp_ladder (s : Int) (h : ladderP s) : ladderP (stepUp s) := by
  rcases h with h | h | h | h <;> (subst h; decide)

theorem stepDown_ladder (s : Int) (h : ladderP s) : ladderP (stepDown s) := by
  rcases h with h | h | h | h <;> (subst h; decide)

theorem keySwitch_ladder (st : St) (c : Nat) (h : ladderP st.step) :
    ladderP (keySwitch st c).1.step := by
  rw [keySwitch_step]
  split_ifs
  · exact stepUp_ladder _ h
  · exact stepDown_ladder _ h
  · exact h

/-! ## Lemmas about a whole iteration -/

theorem tick_trace (cfg : Config) (env : TickEnv) (st : St) :
    (tick cfg env st).2 =
      (phaseMonitor cfg env (latchSignals env st)).2 ++
      ((phaseReload cfg env (phaseMonitor cfg env (latchSignals env st)).1).2 ++
       ((phaseKey cfg env
          (phaseReload cfg env (phaseMonitor cfg env (latchSignals env st)).1).1).2 ++
        (phaseTime cfg
          (phaseKey cfg env
            (phaseReload cfg env (phaseMonitor cfg env (latchSignals env st)).1).1).1).2)) := by
  rfl

theorem tick_fst (cfg : Config) (env : TickEnv) (st : St) :
    (tick cfg env st).1 =
      (phaseTime cfg
        (phaseKey cfg env
          (phaseReload cfg env (phaseMonitor cfg env (latchSignals env st)).1).1).1).1 := by
  rfl

theorem phaseKey_step_cases (cfg : Config) (env : TickEnv) (st : St) :
    (phaseKey cfg env st).1.step = st.step ∨
    (phaseKey cfg env st).1.step = stepUp st.step ∨
    (phaseKey cfg env st).1.step = stepDown st.step := by
  unfold phaseKey
  split_ifs with h1
  · cases env.key with
    | none => simp
    | some c0 =>
      dsimp only
      split_ifs <;>
        simp only [applyKey] <;>
        rw [keySwitch_step] <;>
        split_ifs <;> simp
  · simp

theorem tick_step_cases (cfg : Config) (env : TickEnv) (st : St) :
    (tick cfg env st).1.step = st.step ∨
    (tick cfg env st).1.step = stepUp st.step ∨
    (tick cfg env st).1.step = stepDown st.step := by
  rw [tick_fst]
  rw [(phaseTime_fields cfg _).2.2.1]
  have hl := (latchSignals_fields env st).2.2.1
  have hm := (phaseMonitor_fields cfg env (latchSignals env st)).2.2.1
  have hr := (phaseReload_fields cfg env (phaseMonitor cfg env (latchSignals env st)).1).2.2.1
  have hk := phaseKey_step_cases cfg env
    (phaseReload cfg env (phaseMonitor cfg env (latchSignals env st)).1).1
  rw [hr, hm, hl] at hk
  exact hk

theorem runLoop_nil (cfg : Config) (st : St) : runLoop cfg [] st = (st, []) := rfl

theorem runLoop_cons (cfg : Config) (e : TickEnv) (es : List TickEnv) (st : St) :
    runLoop cfg (e :: es) st =
      if st.run then
        ((runLoop cfg es (tick cfg e st).1).1,
         (tick cfg e st).2 ++ (runLoop cfg es (tick cfg e st).1).2)
      else (st, []) := rfl

theorem runLoop_stopped (cfg : Config) (envs : List TickEnv) (st : St)
    (h : st.run = false) : runLoop cfg envs st = (st, []) := by
  cases envs with
  | nil => rfl
  | cons e es => unfold runLoop; simp [h]

theorem runLoop_append (cfg : Config) (l1 l2 : List TickEnv) (st : St) :
    runLoop cfg (l1 ++ l2) st =
      ((runLoop cfg l2 (runLoop cfg l1 st).1).1,
       (runLoop cfg l1 st).2 ++ (runLoop cfg l2 (runLoop cfg l1 st).1).2) := by
  induction l1 generalizing st with
  | nil => simp [runLoop_nil]
  | cons e es ih =>
    rw [List.cons_append, runLoop_cons, runLoop_cons]
    by_cases h : st.run
    · simp only [h, if_true]
      rw [ih]
      simp [List.append_assoc]
    · simp only [Bool.not_eq_true] at h
      simp only [h, Bool.false_eq_true, if_false]
      rw [runLoop_stopped cfg l2 st h]
      simp

/-! ## Non-interactive sessions and stdin sessions -/

theorem tick_noninteractive (cfg : Config) (env : TickEnv) (st : St)
    (h : cfg.interactive = false) :
    (tick cfg env st).1.xOffset = st.xOffset ∧
    (tick cfg env st).1.yOffset = st.yOffset ∧
    (tick cfg env st).1.step = st.step ∧
    (∀ c, Ev.keyRead c ∉ (tick cfg env st).2) ∧
    Ev.moveTx ∉ (tick cfg env st).2 := by
  have hkey := phaseKey_noninteractive cfg env
    (phaseReload cfg env (phaseMonitor cfg env (latchSignals env st)).1).1 h
  constructor
  · rw [tick_fst, (phaseTime_fields cfg _).1, hkey]
    rw [(phaseReload_fields cfg env _).1, (phaseMonitor_fields cfg env _).1,
      (latchSignals_fields env st).1]
  constructor
  · rw [tick_fst, (phaseTime_fields cfg _).2.1, hkey]
    rw [(phaseReload_fields cfg env _).2.1, (phaseMonitor_fields cfg env _).2.1,
      (latchSignals_fields env st).2.1]
  constructor
  · rw [tick_fst, (phaseTime_fields cfg _).2.2.1, hkey]
    rw [(phaseReload_fields cfg env _).2.2.1, (phaseMonitor_fields cfg env _).2.2.1,
      (latchSignals_fields env st).2.2.1]
  · rw [tick_trace, hkey]
    rcases phaseMonitor_shape cfg env (latchSignals env st) with hm | hm | hm <;>
    rcases phaseReload_shape cfg env (phaseMonitor cfg env (latchSignals env st)).1 with
      hr | hr | hr <;>
    rcases phaseTime_shape cfg
      (phaseReload cfg env (phaseMonitor cfg env (latchSignals env st)).1).1 with ht | ht <;>
    rw [hm, hr, ht] <;> simp

theorem runLoop_noninteractive (cfg : Config) (envs : List TickEnv) (st : St)
    (h : cfg.interactive = false) :
    (runLoop cfg envs st).1.xOffset = st.xOffset ∧
    (runLoop cfg envs st).1.yOffset = st.yOffset ∧
    (runLoop cfg envs st).1.step = st.step ∧
    (∀ c, Ev.keyRead c ∉ (runLoop cfg envs st).2) ∧
    Ev.moveTx ∉ (runLoop cfg envs st).2 := by
  induction envs generalizing st with
  | nil => simp [runLoop_nil]
  | cons e es ih =>
    rw [runLoop_cons]
    by_cases hr : st.run
    · simp only [hr, if_true, List.mem_append]
      obtain ⟨h1, h2, h3, h4, h5⟩ := tick_noninteractive cfg e st h
      obtain ⟨g1, g2, g3, g4, g5⟩ := ih (tick cfg e st).1
      refine ⟨by rw [g1, h1], by rw [g2, h2], by rw [g3, h3], ?_, ?_⟩
      · intro c
        push_neg
        exact ⟨h4 c, g4 c⟩
      · push_neg
        exact ⟨h5, g5⟩
    · simp only [Bool.not_eq_true] at hr
      simp [hr]

theorem tick_stdin (cfg : Config) (env : TickEnv) (st : St)
    (h : cfg.stdinSource = true) :
    (∀ b, Ev.reloadApply b ∉ (tick cfg env st).2) ∧
    Ev.contentTx ∉ (tick cfg env st).2 ∧
    Ev.pause200 ∉ (tick cfg env st).2 := by
  rw [tick_trace,
    phaseReload_stdin cfg env (phaseMonitor cfg env (latchSignals env st)).1 h]
  rcases phaseMonitor_shape cfg env (latchSignals env st) with hm | hm | hm <;>
  rcases phaseKey_shape cfg env
    (phaseReload cfg env (phaseMonitor cfg env (latchSignals env st)).1).1 with
    hk | ⟨k, hk⟩ | ⟨k, hk⟩ <;>
  rcases phaseTime_shape cfg
    (phaseKey cfg env
      (phaseReload cfg env (phaseMonitor cfg env (latchSignals env st)).1).1).1 with
    ht | ht <;>
  rw [hm, hk, ht] <;> simp

theorem runLoop_stdin (cfg : Config) (envs : List TickEnv) (st : St)
    (h : cfg.stdinSource = true) :
    (∀ b, Ev.reloadApply b ∉ (runLoop cfg envs st).2) ∧
    Ev.contentTx ∉ (runLoop cfg envs st).2 ∧
    Ev.pause200 ∉ (runLoop cfg envs st).2 := by
  induction envs generalizing st with
  | nil => simp [runLoop_nil]
  | cons e es ih =>
    rw [runLoop_cons]
    by_cases hr : st.run
    · simp only [hr, if_true]
      obtain ⟨h1, h2, h3⟩ := tick_stdin cfg e st h
      obtain ⟨g1, g2, g3⟩ := ih (tick cfg e st).1
      refine ⟨?_, ?_, ?_⟩
      · intro b
        simp only [List.mem_append]
        push_neg
        exact ⟨h1 b, g1 b⟩
      · simp only [List.mem_append]
        push_neg
        exact ⟨h2, g2⟩
      · simp only [List.mem_append]
        push_neg
        exact ⟨h3, g3⟩
    · simp only [Bool.not_eq_true] at hr
      simp [hr]

theorem runLoop_step_ladder (cfg : Config) (envs : List TickEnv) (st : St)
    (h : ladderP st.step) : ladderP (runLoop cfg envs st).1.step := by
  induction envs generalizing st with
  | nil => simpa [runLoop_nil]
  | cons e es ih =>
    rw [runLoop_cons]
    by_cases hr : st.run
    · simp only [hr, if_true]
      apply ih
      rcases tick_step_cases cfg e st with hc | hc | hc <;> rw [hc]
      · exact h
      · exact stepUp_ladder _ h
      · exact stepDown_ladder _ h
    · simp only [Bool.not_eq_true] at hr
      simpa [hr]

/-! ## The per-iteration ordering contract -/

theorem tick_phase_order (cfg : Config) (env : TickEnv) (st : St) :
    List.Pairwise (fun a b => rank a < rank b) (tick cfg env st).2 := by
  rw [tick_trace]
  rcases phaseMonitor_shape cfg env (latchSignals env st) with hm | hm | hm <;>
  rcases phaseReload_shape cfg env (phaseMonitor cfg env (latchSignals env st)).1 with
    hr | hr | hr <;>
  rcases phaseKey_shape cfg env
    (phaseReload cfg env (phaseMonitor cfg env (latchSignals env st)).1).1 with
    hk | ⟨k, hk⟩ | ⟨k, hk⟩ <;>
  rcases phaseTime_shape cfg
    (phaseKey cfg env
      (phaseReload cfg env (phaseMonitor cfg env (latchSignals env st)).1).1).1 with
    ht | ht <;>
  rw [hm, hr, hk, ht] <;>
  simp [List.pairwise_append, List.pairwise_cons, rank]

/-! ## Transaction counts per iteration -/

theorem latch_monitorFires (cfg : Config) (env : TickEnv) (st : St) :
    monitorFires cfg (latchSignals env st) = monitorFires cfg st := by
  unfold monitorFires
  rw [(latchSignals_fields env st).2.2.2.1, (latchSignals_fields env st).2.2.2.2.1]

theorem phaseMonitor_reload_latch (cfg : Config) (env : TickEnv) (st : St) :
    (phaseMonitor cfg env (latchSignals env st)).1.reload = reloadSeen cfg env st := by
  rw [phaseMonitor_reload, reloadSeen, latch_monitorFires,
    (latchSignals_fields env st).2.2.2.2.2.1, (latchSignals_fields env st).2.2.2.2.2.2.1]

theorem phaseReload_count (cfg : Config) (env : TickEnv) (st : St) :
    (phaseReload cfg env st).2.count Ev.contentTx =
      (if st.reload && !cfg.stdinSource && env.decodeOk then 1 else 0) ∧
    (phaseReload cfg env st).2.count Ev.moveTx = 0 := by
  unfold phaseReload
  dsimp only
  split_ifs <;> simp_all [List.count_cons]

theorem phaseKey_count (cfg : Config) (env : TickEnv) (st : St) :
    (phaseKey cfg env st).2.count Ev.moveTx = (if wantsMoveTx cfg env then 1 else 0) ∧
    (phaseKey cfg env st).2.count Ev.contentTx = 0 := by
  cases hk : env.key with
  | none =>
    simp only [phaseKey, wantsMoveTx, hk]
    split_ifs <;> simp_all
  | some c0 =>
    simp only [phaseKey, wantsMoveTx, hk]
    by_cases h1 : cfg.interactive
    · simp only [h1, if_true]
      rw [applyKey, keySwitch_snd]
      by_cases h2 : isMoveKey (toLowerC c0) = true <;>
        simp_all [List.count_cons]
    · simp_all

theorem phaseMonitor_count (cfg : Config) (env : TickEnv) (st : St) :
    (phaseMonitor cfg env st).2.count Ev.contentTx = 0 ∧
    (phaseMonitor cfg env st).2.count Ev.moveTx = 0 := by
  rcases phaseMonitor_shape cfg env st with hm | hm | hm <;> rw [hm] <;> simp

theorem phaseTime_count (cfg : Config) (st : St) :
    (phaseTime cfg st).2.count Ev.contentTx = 0 ∧
    (phaseTime cfg st).2.count Ev.moveTx = 0 := by
  rcases phaseTime_shape cfg st with ht | ht <;> rw [ht] <;> simp

theorem tick_txCount (cfg : Config) (env : TickEnv) (st : St) :
    txCount (tick cfg env st).2 =
      (if wantsContentTx cfg env st then 1 else 0) +
      (if wantsMoveTx cfg env then 1 else 0) := by
  rw [txCount, tick_trace]
  simp only [List.count_append]
  rw [(phaseMonitor_count cfg env (latchSignals env st)).1,
    (phaseMonitor_count cfg env (latchSignals env st)).2,
    (phaseReload_count cfg env (phaseMonitor cfg env (latchSignals env st)).1).1,
    (phaseReload_count cfg env (phaseMonitor cfg env (latchSignals env st)).1).2,
    (phaseKey_count cfg env
      (phaseReload cfg env (phaseMonitor cfg env (latchSignals env st)).1).1).1,
    (phaseKey_count cfg env
      (phaseReload cfg env (phaseMonitor cfg env (latchSignals env st)).1).1).2,
    (phaseTime_count cfg
      (phaseKey cfg env
        (phaseReload cfg env (phaseMonitor cfg env (latchSignals env st)).1).1).1).1,
    (phaseTime_count cfg
      (phaseKey cfg env
        (phaseReload cfg env (phaseMonitor cfg env (latchSignals env st)).1).1).1).2,
    phaseMonitor_reload_latch cfg env st]
  rw [wantsContentTx]
  omega

/-! ## The file poll and failed queries -/

theorem phaseMonitor_trace_fires (cfg : Config) (env : TickEnv) (st : St)
    (h : monitorFires cfg st = true) :
    (phaseMonitor cfg env st).2 =
      [Ev.fileCheck (decide (st.lastFileMod ≠ getFileModificationTime env))] := by
  unfold phaseMonitor
  dsimp only
  rw [if_pos h]
  split_ifs with h2 <;> simp [h2]

theorem tick_fileCheck_mem (cfg : Config) (env : TickEnv) (st : St)
    (h : monitorFires cfg st = true) :
    (Ev.fileCheck true ∈ (tick cfg env st).2 ↔
      getFileModificationTime env ≠ st.lastFileMod) := by
  rw [tick_trace]
  have hm : monitorFires cfg (latchSignals env st) = true := by
    rw [latch_monitorFires]; exact h
  rw [phaseMonitor_trace_fires cfg env (latchSignals env st) hm,
    (latchSignals_fields env st).2.2.2.2.2.1]
  rcases phaseReload_shape cfg env (phaseMonitor cfg env (latchSignals env st)).1 with
    hr | hr | hr <;>
  rcases phaseKey_shape cfg env
    (phaseReload cfg env (phaseMonitor cfg env (latchSignals env st)).1).1 with
    hk | ⟨k, hk⟩ | ⟨k, hk⟩ <;>
  rcases phaseTime_shape cfg
    (phaseKey cfg env
      (phaseReload cfg env (phaseMonitor cfg env (latchSignals env st)).1).1).1 with
    ht | ht <;>
  rw [hr, hk, ht] <;>
  by_cases hne : st.lastFileMod = getFileModificationTime env <;>
  simp [hne, ne_comm]

/-! ## Quiet runs and the timeout -/

theorem tick_quiet (T : Nat) (st : St) (h : st.reload = false) :
    tick (cfgT T) quietEnv st = phaseTime (cfgT T) st := by
  have hm : monitorFires (cfgT T) st = false := by
    unfold monitorFires cfgT; simp
  have hl : latchSignals quietEnv st = st := by
    unfold latchSignals quietEnv; simp
  have hmon : phaseMonitor (cfgT T) quietEnv st = (st, []) := by
    unfold phaseMonitor; rw [hm]; simp
  have hrel : phaseReload (cfgT T) quietEnv st = (st, []) := by
    unfold phaseReload; rw [h]; simp
  have hkey2 : phaseKey (cfgT T) quietEnv st = (st, []) := by
    unfold phaseKey quietEnv cfgT; simp
  simp only [tick, hl, hmon, hrel, hkey2]
  simp

theorem runLoop_single (cfg : Config) (e : TickEnv) (st : St) (h : st.run = true) :
    runLoop cfg [e] st = ((tick cfg e st).1, (tick cfg e st).2) := by
  rw [runLoop_cons]
  simp [h, runLoop_nil]

theorem mod_step (n : Nat) :
    (10 * n % uint32 + 10) % uint32 = 10 * (n + 1) % uint32 := by
  unfold uint32
  omega

theorem runQuiet_state (T n : Nat)
    (h : ∀ k, k ≤ n → T ≠ 0 → 10 * k % uint32 < T) :
    runLoop (cfgT T) (List.replicate n quietEnv) initSt =
      ({ initSt with currentTime := 10 * n % uint32 },
       List.replicate n Ev.sleepTick) := by
  induction n with
  | zero => simp [runLoop_nil, initSt]
  | succ n ih =>
    have hstep : ∀ k, k ≤ n → T ≠ 0 → 10 * k % uint32 < T :=
      fun k hk => h k (Nat.le_succ_of_le hk)
    rw [List.replicate_succ', runLoop_append, ih hstep,
      runLoop_single _ _ _ rfl, tick_quiet T _ rfl]
    unfold phaseTime
    simp only [cfgT]
    have hcond : ¬(T ≠ 0 ∧ T ≤ (10 * n % uint32 + 10) % uint32) := by
      rintro ⟨hT0, hle⟩
      have := h (n + 1) le_rfl hT0
      rw [mod_step] at hle
      omega
    rw [if_neg hcond]
    dsimp only
    rw [mod_step, ← List.replicate_succ']

theorem runQuiet_stop (T n : Nat) (hT : T ≠ 0)
    (hx : ∃ k, k ≤ n ∧ T ≤ 10 * k % uint32) :
    (runLoop (cfgT T) (List.replicate n quietEnv) initSt).1.run = false := by
  induction n with
  | zero =>
    obtain ⟨k, hk, hle⟩ := hx
    have hk0 : k = 0 := Nat.le_zero.mp hk
    subst hk0
    simp [uint32] at hle
    omega
  | succ n ih =>
    by_cases hprev : ∃ k, k ≤ n ∧ T ≤ 10 * k % uint32
    · have hstop := ih hprev
      rw [List.replicate_succ', runLoop_append,
        runLoop_stopped _ _ _ hstop]
      exact hstop
    · push_neg at hprev
      obtain ⟨k, hk, hle⟩ := hx
      have hkn : k = n + 1 := by
        rcases Nat.lt_or_ge k (n + 1) with hlt | hge
        · exact absurd hle (by have := hprev k (Nat.lt_succ_iff.mp hlt); omega)
        · omega
      subst hkn
      rw [List.replicate_succ', runLoop_append,
        runQuiet_state T n (fun k2 hk2 _ => hprev k2 hk2),
        runLoop_single _ _ _ rfl, tick_quiet T _ rfl]
      unfold phaseTime
      simp only [cfgT]
      rw [if_pos ⟨hT, by rw [mod_step]; exact hle⟩]

theorem runQuiet_run_iff (T n : Nat) (hT : T ≠ 0) :
    ((runLoop (cfgT T) (List.replicate n quietEnv) initSt).1.run = false ↔
      ∃ k, k ≤ n ∧ T ≤ 10 * k % uint32) := by
  constructor
  · intro hrun
    by_contra hno
    push_neg at hno
    rw [runQuiet_state T n (fun k hk _ => hno k hk)] at hrun
    simp [initSt] at hrun
  · exact runQuiet_stop T n hT

/-! ## Position arithmetic -/

theorem runKeys_cons (st : St) (c : Nat) (cs : List Nat) :
    runKeys st (c :: cs) = runKeys (applyKey st c).1 cs := rfl

theorem applyKey_xOffset (st : St) (c : Nat) :
    (applyKey st c).1.xOffset =
      st.xOffset +
        (if toLowerC c = 97 then -st.step else if toLowerC c = 100 then st.step else 0) := by
  rw [applyKey, keySwitch_xOffset]

theorem applyKey_yOffset (st : St) (c : Nat) :
    (applyKey st c).1.yOffset =
      st.yOffset +
        (if toLowerC c = 119 then -st.step else if toLowerC c = 115 then st.step else 0) := by
  rw [applyKey, keySwitch_yOffset]

theorem applyKey_step (st : St) (c : Nat) :
    (applyKey st c).1.step =
      (if toLowerC c = 43 then stepUp st.step
       else if toLowerC c = 45 then stepDown st.step else st.step) := by
  rw [applyKey, keySwitch_step]

theorem runKeys_moveSum (st : St) (cs : List Nat) :
    (runKeys st cs).xOffset = st.xOffset + (specSignedMoveSum st.step cs).1 ∧
    (runKeys st cs).yOffset = st.yOffset + (specSignedMoveSum st.step cs).2 := by
  induction cs generalizing st with
  | nil => simp [runKeys, specSignedMoveSum]
  | cons c cs ih =>
    obtain ⟨ih1, ih2⟩ := ih (applyKey st c).1
    rw [runKeys_cons, ih1, ih2, applyKey_xOffset, applyKey_yOffset, applyKey_step]
    simp only [specSignedMoveSum]
    constructor <;> split_ifs <;> ring

/-! ## Case insensitivity of the keyboard handler -/

theorem applyKey_lower (st : St) (c : Nat) :
    applyKey st c = applyKey st (toLowerC c) := by
  unfold applyKey
  rw [toLowerC_toLowerC]

theorem phaseKey_lower (cfg : Config) (env : TickEnv) (st : St) (c : Nat) :
    phaseKey cfg { env with key := some c } st =
      phaseKey cfg { env with key := some (toLowerC c) } st := by
  simp only [phaseKey, applyKey, toLowerC_toLowerC]

theorem tick_key_lower (cfg : Config) (env : TickEnv) (st : St) (c : Nat) :
    tick cfg { env with key := some c } st =
      tick cfg { env with key := some (toLowerC c) } st := by
  have h1 : latchSignals { env with key := some c } st =
      latchSignals { env with key := some (toLowerC c) } st := rfl
  have h2 : ∀ s, phaseMonitor cfg { env with key := some c } s =
      phaseMonitor cfg { env with key := some (toLowerC c) } s := fun s => rfl
  have h3 : ∀ s, phaseReload cfg { env with key := some c } s =
      phaseReload cfg { env with key := some (toLowerC c) } s := fun s => rfl
  have h4 : ∀ s, phaseKey cfg { env with key := some c } s =
      phaseKey cfg { env with key := some (toLowerC c) } s :=
    fun s => phaseKey_lower cfg env s c
  simp only [tick, h1, h2, h3, h4]

/-! ## Concrete sessions, environments and states used in the claim theorems -/

/-- A path-source interactive session: no monitoring, no timeout. -/
def cfgPath : Config :=
  { stdinSource := false, interactive := true, monitorChanges := false, timeout := 0 }

/-- An iteration in which `loadPng` fails and nothing else happens. -/
def envDecodeFail : TickEnv :=
  { sigReload := false, sigStop := false, statResult := none, statJunk := 0,
    decodeOk := false, key := none }

/-- The loop-entry state with a reload already latched (e.g. by `SIGTSTP`). -/
def stReloadPending : St := { initSt with reload := true }

/-- An iteration with a freshly delivered `SIGTSTP`, a successful decode and
a pending `d` key: both content and position change in the same tick. -/
def envBoth : TickEnv :=
  { sigReload := true, sigStop := false, statResult := none, statJunk := 0,
    decodeOk := true, key := some 100 }

/-- A path-source interactive session with a 10 ms timeout. -/
def cfgTen : Config :=
  { stdinSource := false, interactive := true, monitorChanges := false, timeout := 10 }

/-- An iteration whose only event is a pending `d` key. -/
def envKeyD : TickEnv :=
  { sigReload := false, sigStop := false, statResult := none, statJunk := 0,
    decodeOk := true, key := some 100 }

/-- An iteration in which `stat` fails and the uninitialised `st_mtime`
happens to hold `7`. -/
def envStatFail : TickEnv :=
  { sigReload := false, sigStop := false, statResult := none, statJunk := 7,
    decodeOk := true, key := none }

/-- An iteration in which `stat` succeeds with modification time `7`. -/
def envStatOk : TickEnv :=
  { sigReload := false, sigStop := false, statResult := some 7, statJunk := 0,
    decodeOk := true, key := none }

/-- The loop state one second in, when the file poll is due. -/
def stMonitorDue : St := { initSt with currentTime := 1000 }

/-- A path-source session with `-m` monitoring enabled. -/
def cfgMon : Config :=
  { stdinSource := false, interactive := true, monitorChanges := true, timeout := 0 }

/-- A standard-input session with `-m` monitoring requested. -/
def cfgStdinMon : Config :=
  { stdinSource := true, interactive := true, monitorChanges := true, timeout := 0 }

/-- A session with keyboard interactivity disabled (`-n`). -/
def cfgNonInt : Config :=
  { stdinSource := false, interactive := false, monitorChanges := false, timeout := 0 }

/-! ## The claims -/

/-- Claim C1, evaluated at the failing input (code bug): in a tick with a
pending reload on a path source whose decode attempt fails, the code clears
`reload` before the attempt and never re-sets it, so after the bounded
200 ms pause the flag is `false`, the session continues, and the following
tick performs no retry whatsoever — contradicting the claim (and the
in-code comment "wait and try again" together with the redundant clear in
the success branch) that `reloadPending` remains set and the reload is
retried on a subsequent tick. -/
theorem C1_reload_lost_on_failed_decode :
    stReloadPending.reload = true ∧
    (tick cfgPath envDecodeFail stReloadPending).2 =
      [Ev.reloadApply false, Ev.pause200, Ev.sleepTick] ∧
    (tick cfgPath envDecodeFail stReloadPending).1.reload = false ∧
    (tick cfgPath envDecodeFail stReloadPending).1.run = true ∧
    (tick cfgPath envDecodeFail (tick cfgPath envDecodeFail stReloadPending).1).2 =
      [Ev.sleepTick] := by decide

/-- Claim C2 (counterexample): in a tick where both the content and the
position change — a pending reload with a successful decode together with a
`d` key — the loop issues two compositor transactions, not one. -/
theorem C2_two_transactions_in_one_tick :
    txCount (tick cfgPath envBoth initSt).2 = 2 ∧
    Ev.contentTx ∈ (tick cfgPath envBoth initSt).2 ∧
    Ev.moveTx ∈ (tick cfgPath envBoth initSt).2 := by decide

/-- Claim C2 (amended): each dirty kind issues its own transaction — a tick
issues exactly one content transaction when a visible reload request decodes
successfully on a path source, plus exactly one move transaction when an
interactive tick consumes a move key; a tick with both issues two, a tick
with neither issues zero. -/
theorem C2_one_transaction_per_dirty_kind :
    ∀ (cfg : Config) (env : TickEnv) (st : St),
      txCount (tick cfg env st).2 =
        (if wantsContentTx cfg env st then 1 else 0) +
        (if wantsMoveTx cfg env then 1 else 0) :=
  tick_txCount

/-- Claim C3 (counterexample): with `timeout = 10` and a pending `d` key,
the very tick in which the timeout stops the loop still processes the key
and issues its move transaction before the timeout check runs — the timeout
check is the last step of the tick, after the sleep, so it neither comes
first nor suppresses the other processing of that tick. -/
theorem C3_timeout_fires_after_processing :
    cfgTen.timeout ≠ 0 ∧
    (tick cfgTen envKeyD initSt).2 =
      [Ev.keyRead 100, Ev.moveTx, Ev.sleepTick, Ev.timeoutFired] ∧
    (tick cfgTen envKeyD initSt).1.run = false ∧
    (tick cfgTen envKeyD initSt).1.xOffset = 1 := by decide

/-- Claim C3 (amended): within every tick the steps occur in the fixed
order file-change check, reload application, one input event, its move
commit, the fixed sleep, and the timeout check last; once `running` is
false the loop performs no further tick. -/
theorem C3_phase_order_contract :
    (∀ (cfg : Config) (env : TickEnv) (st : St),
      List.Pairwise (fun a b => rank a < rank b) (tick cfg env st).2) ∧
    (∀ (cfg : Config) (envs : List TickEnv) (st : St),
      st.run = false → runLoop cfg envs st = (st, [])) :=
  ⟨tick_phase_order, runLoop_stopped⟩

/-- Witness for the amended claim C3 at a concrete stopped state. -/
theorem C3_phase_order_contract_witness :
    runLoop cfgPath [envKeyD] { initSt with run := false } =
      ({ initSt with run := false }, []) :=
  C3_phase_order_contract.2 cfgPath [envKeyD] { initSt with run := false } (by decide)

/-- Claim C4 (counterexample): a failed modification-time query returns the
indeterminate buffer value, which is indistinguishable from a genuine
timestamp (here both a failing and a succeeding query return `7`), and the
controller does not treat the failure as "no change": starting with
`reload = false` and `lastFileMod = 0`, the failed query latches a reload
and a full (spurious) content swap happens in the same tick. -/
theorem C4_failed_query_triggers_reload :
    envStatFail.statResult = none ∧
    getFileModificationTime envStatFail = getFileModificationTime envStatOk ∧
    stMonitorDue.reload = false ∧
    Ev.fileCheck true ∈ (tick cfgMon envStatFail stMonitorDue).2 ∧
    Ev.contentTx ∈ (tick cfgMon envStatFail stMonitorDue).2 := by decide

/-- Claim C4 (amended): the query has no sentinel — every integer is a
possible return value of a failed query — and the controller compares the
returned value against `lastFileMod` exactly as on success: whenever the
poll is due, a reload is latched precisely when the returned value (genuine
or indeterminate) differs from `lastFileMod`. -/
theorem C4_failed_query_is_ordinary_timestamp :
    (∀ v : Int, ∃ env : TickEnv,
      env.statResult = none ∧ getFileModificationTime env = v) ∧
    (∀ (cfg : Config) (env : TickEnv) (st : St),
      monitorFires cfg st = true →
        (Ev.fileCheck true ∈ (tick cfg env st).2 ↔
          getFileModificationTime env ≠ st.lastFileMod)) :=
  ⟨fun v =>
    ⟨{ sigReload := false, sigStop := false, statResult := none, statJunk := v,
       decodeOk := true, key := none }, rfl, rfl⟩,
   tick_fileCheck_mem⟩

/-- Witness for the amended claim C4 at a concrete due poll with a failed
query. -/
theorem C4_failed_query_is_ordinary_timestamp_witness :
    (Ev.fileCheck true ∈ (tick cfgMon envStatFail stMonitorDue).2 ↔
      getFileModificationTime envStatFail ≠ stMonitorDue.lastFileMod) :=
  C4_failed_query_is_ordinary_timestamp.2 cfgMon envStatFail stMonitorDue (by decide)

/-- Claim C5 (counterexample): for a standard-input session the reload
flag is still set — the signal handler latches `reload` unconditionally (it
never inspects the image source), and the `-m` poll is not disabled either:
with a stdin source it still stats the literal path and latches a reload
when the returned value differs. -/
theorem C5_signal_and_monitor_set_reload_for_stdin :
    initSt.reload = false ∧
    (signalHandler Signal.sigtstp initSt).reload = true ∧
    cfgStdinMon.stdinSource = true ∧
    Ev.fileCheck true ∈ (tick cfgStdinMon envStatFail stMonitorDue).2 := by decide

/-- Claim C5 (amended): although signals and `-m` polling can still set the
reload flag in a standard-input session, the reload is never applied: over
any run of such a session no reload attempt, no content transaction and no
reload-failure pause ever occurs, so the displayed content never changes
after startup. -/
theorem C5_stdin_session_never_reloads :
    ∀ (cfg : Config) (envs : List TickEnv) (st : St),
      cfg.stdinSource = true →
        (∀ b, Ev.reloadApply b ∉ (runLoop cfg envs st).2) ∧
        Ev.contentTx ∉ (runLoop cfg envs st).2 ∧
        Ev.pause200 ∉ (runLoop cfg envs st).2 :=
  runLoop_stdin

/-- Witness for the amended claim C5 at a concrete stdin session. -/
theorem C5_stdin_session_never_reloads_witness :
    (∀ b, Ev.reloadApply b ∉ (runLoop cfgStdinMon [envStatFail] initSt).2) ∧
    Ev.contentTx ∉ (runLoop cfgStdinMon [envStatFail] initSt).2 ∧
    Ev.pause200 ∉ (runLoop cfgStdinMon [envStatFail] initSt).2 :=
  C5_stdin_session_never_reloads cfgStdinMon [envStatFail] initSt (by decide)

/-- Claim C6: along every run of the session loop `step` stays in the
ladder `{1, 5, 10, 20}`; each increase or decrease moves exactly one rung,
saturating at the ends; and from `step = 1` four consecutive increase
events yield the sequence `5, 10, 20, 20`. -/
theorem C6_step_ladder :
    (∀ (cfg : Config) (envs : List TickEnv) (st : St),
      ladderP st.step → ladderP (runLoop cfg envs st).1.step) ∧
    (stepUp 1 = 5 ∧ stepUp 5 = 10 ∧ stepUp 10 = 20 ∧ stepUp 20 = 20) ∧
    (stepDown 20 = 10 ∧ stepDown 10 = 5 ∧ stepDown 5 = 1 ∧ stepDown 1 = 1) ∧
    ((runKeys initSt [43]).step = 5 ∧ (runKeys initSt [43, 43]).step = 10 ∧
     (runKeys initSt [43, 43, 43]).step = 20 ∧
     (runKeys initSt [43, 43, 43, 43]).step = 20) :=
  ⟨runLoop_step_ladder, by decide, by decide, by decide⟩

/-- Witness for claim C6 at a concrete run from the startup state. -/
theorem C6_step_ladder_witness :
    ladderP initSt.step ∧ ladderP (runLoop cfgPath [envBoth] initSt).1.step :=
  ⟨by decide, C6_step_ladder.1 cfgPath [envBoth] initSt (by decide)⟩

/-- Claim C7: with a nonzero timeout `T` and no other events, `running`
becomes false exactly when the accumulated `uint32` tick counter (stepping
by 10 ms) has reached `T` at some tick, and at no earlier tick; with
`T = 50` the loop runs exactly 5 ticks and then stops; with `T = 0` the
timeout never stops the loop. -/
theorem C7_timeout_semantics :
    (∀ T n : Nat, T ≠ 0 →
      ((runLoop (cfgT T) (List.replicate n quietEnv) initSt).1.run = false ↔
        ∃ k, k ≤ n ∧ T ≤ 10 * k % uint32)) ∧
    ((runLoop (cfgT 50) (List.replicate 4 quietEnv) initSt).1.run = true) ∧
    ((runLoop (cfgT 50) (List.replicate 5 quietEnv) initSt).1.run = false) ∧
    ((runLoop (cfgT 50) (List.replicate 5 quietEnv) initSt).2.count Ev.sleepTick = 5) ∧
    (∀ n, runLoop (cfgT 50) (List.replicate (5 + n) quietEnv) initSt =
      runLoop (cfgT 50) (List.replicate 5 quietEnv) initSt) ∧
    (∀ n, (runLoop (cfgT 0) (List.replicate n quietEnv) initSt).1.run = true) := by
  refine ⟨runQuiet_run_iff, by decide, by decide, by decide, ?_, ?_⟩
  · intro n
    rw [List.replicate_add, runLoop_append, runLoop_stopped _ _ _ (by decide)]
    simp
  · intro n
    rw [runQuiet_state 0 n (fun k hk h0 => absurd rfl h0)]
    rfl

/-- Witness for claim C7 at the concrete timeout 50 after 5 ticks. -/
theorem C7_timeout_semantics_witness :
    (50 : Nat) ≠ 0 ∧
    ((runLoop (cfgT 50) (List.replicate 5 quietEnv) initSt).1.run = false ↔
      ∃ k, k ≤ 5 ∧ 50 ≤ 10 * k % uint32) :=
  ⟨by decide, C7_timeout_semantics.1 50 5 (by decide)⟩

/-- Claim C8: for every key sequence, the final position equals the initial
position plus the signed sum of the per-move displacements, each taken with
the value `step` has at the moment the move is applied. -/
theorem C8_position_signed_sum :
    ∀ (st : St) (cs : List Nat),
      (runKeys st cs).xOffset = st.xOffset + (specSignedMoveSum st.step cs).1 ∧
      (runKeys st cs).yOffset = st.yOffset + (specSignedMoveSum st.step cs).2 :=
  runKeys_moveSum

/-- Claim C9: keyboard handling is case-insensitive — processing a raw byte
is identical to processing its lower-cased form, both for the key handler
alone and for a whole tick, and in particular the uppercase `A`, `D`, `W`,
`S` act exactly like their lowercase counterparts. -/
theorem C9_case_insensitive :
    (∀ (st : St) (c : Nat), applyKey st c = applyKey st (toLowerC c)) ∧
    (∀ (cfg : Config) (env : TickEnv) (st : St) (c : Nat),
      tick cfg { env with key := some c } st =
        tick cfg { env with key := some (toLowerC c) } st) ∧
    (∀ st : St, applyKey st 65 = applyKey st 97 ∧ applyKey st 68 = applyKey st 100 ∧
      applyKey st 87 = applyKey st 119 ∧ applyKey st 83 = applyKey st 115) :=
  ⟨applyKey_lower, tick_key_lower,
   fun st => ⟨applyKey_lower st 65, applyKey_lower st 68,
              applyKey_lower st 87, applyKey_lower st 83⟩⟩

/-- Claim C10: with interactivity disabled, position and step keep their
startup values over any run, no keyboard byte is ever consumed, and no move
transaction is ever issued — only reload-driven content transactions can
occur. -/
theorem C10_noninteractive_frozen :
    ∀ (cfg : Config) (envs : List TickEnv) (st : St),
      cfg.interactive = false →
        (runLoop cfg envs st).1.xOffset = st.xOffset ∧
        (runLoop cfg envs st).1.yOffset = st.yOffset ∧
        (runLoop cfg envs st).1.step = st.step ∧
        (∀ c, Ev.keyRead c ∉ (runLoop cfg envs st).2) ∧
        Ev.moveTx ∉ (runLoop cfg envs st).2 :=
  runLoop_noninteractive

/-- Witness for claim C10 at a concrete non-interactive session. -/
theorem C10_noninteractive_frozen_witness :
    (runLoop cfgNonInt [envKeyD] initSt).1.xOffset = initSt.xOffset ∧
    (runLoop cfgNonInt [envKeyD] initSt).1.yOffset = initSt.yOffset ∧
    (runLoop cfgNonInt [envKeyD] initSt).1.step = initSt.step ∧
    (∀ c, Ev.keyRead c ∉ (runLoop cfgNonInt [envKeyD] initSt).2) ∧
    Ev.moveTx ∉ (runLoop cfgNonInt [envKeyD] initSt).2 :=
  C10_noninteractive_frozen cfgNonInt [envKeyD] initSt (by decide)
